import Mathlib

/-!
Verification development for the trading-simulation core of the
trading-technical-indicators repository (src/tti/utils/trading_simulation.py).

The simulation state is embedded shallowly:

* the pandas DataFrame `_portfolio` (columns position, items, unit_price,
  status; one row per trading day, rows start unset) becomes a
  `List (Option PRow)`, where `none` stands for a row whose cells are still
  NaN (the frames are created with `data=None`);
* the pandas DataFrame `_simulation_data` (columns signal, trading_action,
  stocks_in_transaction, balance, stock_value, total_value) becomes a
  `List (Option SimRow)`;
* float cells that can hold NaN are `Option ℚ` (`none` = NaN); NaN
  arithmetic propagates `none`, and every NaN comparison is `false`,
  matching IEEE semantics of the Python floats involved;
* the string cell `total_value` may transiently hold the Python string
  `N/A` before being overwritten, hence the dedicated cell type `TCell`;
* fallible pandas operations (out-of-range `iat`, missing columns,
  truthiness of a multi-element Series, `int(nan)`) return
  `Except String`.

Where the source combines boolean Series with the Python keyword `and`
(`_closeOpenPositions`, `_calculateSimulationStatistics`), the repository
design notes flag the construct as ambiguous.  The main model
(`closeOpenPositions`) uses the element-wise reading of those masks; the
literal Python semantics (truthiness of a Series, which raises ValueError
for length other than one) is modelled separately by
`closeOpenPositionsRaw`, and the statistics model keeps the literal column
lookup `self._portfolio['close']`, a column the portfolio frame does not
have.
-/

namespace TradingSim

/-- One row of the `_portfolio` DataFrame: position (`long` / `short` /
`none`), items, unit_price, status (`open` / `close` / `none`). -/
structure PRow where
  position : String
  items : ℤ
  unit_price : ℚ
  status : String
deriving DecidableEq

/-- The row `['none', 0, 0.0, 'none']` written for days without a new
position. -/
def noneRow : PRow := ⟨ "none", 0, 0, "none"⟩

/-- A cell of the `total_value` column: it transiently holds the Python
string `N/A` (constructor `na`) before being overwritten with a float. -/
inductive TCell where
  | na : TCell
  | num : Option ℚ → TCell
deriving DecidableEq

/-- One row of the `_simulation_data` DataFrame. -/
structure SimRow where
  signal : String
  trading_action : String
  stocks_in_transaction : ℤ
  balance : Option ℚ
  stock_value : ℚ
  total_value : TCell
deriving DecidableEq

/-- Constructor arguments of TradingSimulation that the per-day logic
reads: the `close` column of `_close_values`, `_max_items_per_transaction`
and `_max_investment` (`none` = Python None = unlimited). -/
structure Config where
  close_values : List ℚ
  max_items_per_transaction : ℤ
  max_investment : Option ℚ
deriving DecidableEq

/-- The mutable state of a simulation: `_portfolio` and
`_simulation_data`, both with one (initially unset) row per trading
day. -/
structure SimState where
  portfolio : List (Option PRow)
  simulation_data : List (Option SimRow)
deriving DecidableEq

/-- Python `values` of the trading signal argument of
`runSimulationRound`.  `buy`, `sell` and `hold` stand for the tuples
`('buy', -1)`, `('sell', 1)` and `('hold', 0)`; `pynone` is Python None
and `unknown` any other value.  Modelled from the spec: the constant
`TRADE_SIGNALS` lives in tti/utils/constants.py, which is not part of
src/; the three codes are taken verbatim from the docstring of
`runSimulationRound`. -/
inductive PySignal where
  | buy : PySignal
  | sell : PySignal
  | hold : PySignal
  | pynone : PySignal
  | unknown : PySignal
deriving DecidableEq

/-- `df.iat[i] = row`: writes a whole row; IndexError when out of
range. -/
def setRow {α : Type} (l : List α) (i : ℕ) (v : α) : Except String (List α) :=
  if i < l.length then .ok (l.set i v) else .error "IndexError"

/-- `self._simulation_data['balance'].iat[i]`: the balance cell of row
`i`; NaN (`none`) when the row has not been written yet, IndexError when
`i` is out of range. -/
def balIat (sd : List (Option SimRow)) (i : ℕ) : Except String (Option ℚ) :=
  match sd[i]? with
  | some r => .ok (r.bind SimRow.balance)
  | none => .error "IndexError"

/-- `self._close_values['close'].iat[i]`. -/
def priceAt (cv : List ℚ) (i : ℕ) : Except String ℚ :=
  match cv[i]? with
  | some p => .ok p
  | none => .error "IndexError"

/-- NaN-propagating subtraction of a float from a float cell. -/
def cellSubQ (c : Option ℚ) (v : ℚ) : Option ℚ := c.map (fun b => b - v)

/-- NaN-propagating addition of a float to a float cell. -/
def cellAddQ (c : Option ℚ) (v : ℚ) : Option ℚ := c.map (fun b => b + v)

/-- `cell < 0` with Python float semantics: any comparison with NaN is
False. -/
def cellNeg : Option ℚ → Bool
  | some q => decide (q < 0)
  | none => false

/-- Python `int()` applied to a float: truncation toward zero. -/
def pyTrunc (q : ℚ) : ℤ := if 0 ≤ q then ⌊q⌋ else ⌈q⌉

/-- Python `int()` applied to a float cell: `int(nan)` raises
ValueError. -/
def pyIntCell : Option ℚ → Except String ℤ
  | some q => .ok (pyTrunc q)
  | none => .error "ValueError: cannot convert float NaN to integer"

/-- Items of the open positions of a given side:
`sum(portfolio[(status == open) element-wise-and (position == pos)][items])`. -/
def openItems (pf : List (Option PRow)) (pos : String) : ℤ :=
  (pf.filterMap (fun r => match r with
    | some x => if x.status == "open" && x.position == pos then some x.items else none
    | none => none)).sum

/-- Items of the open long positions with `unit_price < price`. -/
def openLongBelow (pf : List (Option PRow)) (price : ℚ) : ℤ :=
  (pf.filterMap (fun r => match r with
    | some x =>
        if x.status == "open" && (x.position == "long" && decide (x.unit_price < price)) then
          some x.items
        else none
    | none => none)).sum

/-- Items of the open short positions with `unit_price > price`. -/
def openShortAbove (pf : List (Option PRow)) (price : ℚ) : ℤ :=
  (pf.filterMap (fun r => match r with
    | some x =>
        if x.status == "open" && (x.position == "short" && decide (price < x.unit_price)) then
          some x.items
        else none
    | none => none)).sum

/-- `_closeOpenPositions(price, force_all, write)` under the element-wise
reading of the compound masks.  Returns the transaction value together
with the portfolio after the call.  The source registers the close action
through `self._portfolio[mask]['status'] = 'close'`: boolean-mask
indexing returns a fresh copy of the selected rows, so the assignment
mutates that copy and `self._portfolio` itself is left unchanged in every
case; the returned portfolio reflects this. -/
def closeOpenPositions (pf : List (Option PRow)) (price : ℚ)
    (force_all write : Bool) : ℚ × List (Option PRow) :=
  if force_all then
    let total_long_items := openItems pf "long"
    let total_short_items := openItems pf "short"
    let value := ((total_long_items - total_short_items : ℤ) : ℚ) * price
    (value, pf)
  else
    let total_long_items := openLongBelow pf price
    let total_short_items := openShortAbove pf price
    let value := ((total_long_items - total_short_items : ℤ) : ℚ) * price
    (value, pf)

/-- `self._simulation_data['total_value'].iat[i] =
self._simulation_data['balance'].iat[i] + value`, performed on the row
that was just written (single-column access is a view, so this write does
reach the frame). -/
def setTotalValue (sd : List (Option SimRow)) (i : ℕ) (value : ℚ) :
    Except String (List (Option SimRow)) :=
  match sd[i]? with
  | some (some r) =>
      .ok (sd.set i (some { r with total_value := TCell.num (cellAddQ r.balance value) }))
  | _ => .error "IndexError"

/-- `_processHoldSignal(i_index)`. -/
def processHoldSignal (cfg : Config) (st : SimState) (i : ℕ) :
    Except String SimState := do
  let pf1 ← setRow st.portfolio i (some noneRow)
  let price ← priceAt cfg.close_values i
  let vp := closeOpenPositions pf1 price true false
  let prev ← balIat st.simulation_data (i - 1)
  let sd1 ← setRow st.simulation_data i
    (some ⟨ "hold", "none", 0, prev, price, TCell.num (cellAddQ prev vp.1)⟩ )
  pure ⟨ vp.2, sd1⟩

/-- `_processBuySignal(i_index)`.  The guard compares
`self._simulation_data['balance'].iat[i_index]` (the balance cell of the
current row, still NaN at this point of the round) with the price and
`max_investment`; the quantity of an opened position is
`min(max_items_per_transaction, int((balance[i-1] - max_investment) / price))`
when `max_investment` is set. -/
def processBuySignal (cfg : Config) (st : SimState) (i : ℕ) :
    Except String SimState := do
  let price ← priceAt cfg.close_values i
  let cur ← balIat st.simulation_data i
  if cfg.max_investment.isSome &&
      cellNeg (cellAddQ (cellSubQ cur price) (cfg.max_investment.getD 0)) then
    let pf1 ← setRow st.portfolio i (some noneRow)
    let vp := closeOpenPositions pf1 price true false
    let prev ← balIat st.simulation_data (i - 1)
    let sd1 ← setRow st.simulation_data i
      (some ⟨ "buy", "none", 0, prev, price, TCell.num (cellAddQ prev vp.1)⟩ )
    pure ⟨ vp.2, sd1⟩
  else
    let quantity ← (match cfg.max_investment with
      | some mi => do
          let prev ← balIat st.simulation_data (i - 1)
          let t ← pyIntCell ((cellSubQ prev mi).map (fun b => b / price))
          pure (min cfg.max_items_per_transaction t)
      | none => pure cfg.max_items_per_transaction : Except String ℤ)
    let pf1 ← setRow st.portfolio i (some ⟨ "long", quantity, price, "open"⟩ )
    let prev ← balIat st.simulation_data (i - 1)
    let sd1 ← setRow st.simulation_data i
      (some ⟨ "buy", "open_long", quantity,
        cellSubQ prev ((quantity : ℚ) * price), price, TCell.na⟩ )
    let vp := closeOpenPositions pf1 price true false
    let sd2 ← setTotalValue sd1 i vp.1
    pure ⟨ vp.2, sd2⟩

/-- `_processSellSignal(i_index)`: mirror image of the buy handler,
opening a `short` position and adding the proceeds to the balance. -/
def processSellSignal (cfg : Config) (st : SimState) (i : ℕ) :
    Except String SimState := do
  let price ← priceAt cfg.close_values i
  let cur ← balIat st.simulation_data i
  if cfg.max_investment.isSome &&
      cellNeg (cellAddQ (cellSubQ cur price) (cfg.max_investment.getD 0)) then
    let pf1 ← setRow st.portfolio i (some noneRow)
    let vp := closeOpenPositions pf1 price true false
    let prev ← balIat st.simulation_data (i - 1)
    let sd1 ← setRow st.simulation_data i
      (some ⟨ "sell", "none", 0, prev, price, TCell.num (cellAddQ prev vp.1)⟩ )
    pure ⟨ vp.2, sd1⟩
  else
    let quantity ← (match cfg.max_investment with
      | some mi => do
          let prev ← balIat st.simulation_data (i - 1)
          let t ← pyIntCell ((cellSubQ prev mi).map (fun b => b / price))
          pure (min cfg.max_items_per_transaction t)
      | none => pure cfg.max_items_per_transaction : Except String ℤ)
    let pf1 ← setRow st.portfolio i (some ⟨ "short", quantity, price, "open"⟩ )
    let prev ← balIat st.simulation_data (i - 1)
    let sd1 ← setRow st.simulation_data i
      (some ⟨ "sell", "open_short", quantity,
        cellAddQ prev ((quantity : ℚ) * price), price, TCell.na⟩ )
    let vp := closeOpenPositions pf1 price true false
    let sd2 ← setTotalValue sd1 i vp.1
    pure ⟨ vp.2, sd2⟩

/-- The bootstrap row `['hold', 'none', 0, 0.0, 0.0, 0.0]` written for
day 0. -/
def day0Row : SimRow := ⟨ "hold", "none", 0, some 0, 0, TCell.num (some 0)⟩

/-- `runSimulationRound(i_index, signal)`: day 0 only writes the fixed
bootstrap rows; on later days the round dispatches on the signal, any
value other than the buy and sell codes falling through to the hold
handler. -/
def runSimulationRound (cfg : Config) (st : SimState) (i : ℕ)
    (signal : PySignal) : Except String SimState :=
  if i = 0 then
    match setRow st.simulation_data 0 (some day0Row) with
    | .error e => .error e
    | .ok sd1 =>
    match setRow st.portfolio 0 (some noneRow) with
    | .error e => .error e
    | .ok pf1 => .ok ⟨ pf1, sd1⟩
  else
    match signal with
    | PySignal.buy => processBuySignal cfg st i
    | PySignal.sell => processSellSignal cfg st i
    | _ => processHoldSignal cfg st i

/-- Fresh simulation state: both frames allocated with one unset (NaN)
row per trading day. -/
def initState (n : ℕ) : SimState :=
  ⟨ List.replicate n none, List.replicate n none⟩

/-- One round per remaining signal, with `i` the index of the current
day; stops at the first raised error. -/
def runRounds (cfg : Config) : ℕ → List PySignal → SimState → Except String SimState
  | _, [], st => .ok st
  | i, s :: rest, st =>
    match runSimulationRound cfg st i s with
    | .error e => .error e
    | .ok st2 => runRounds cfg (i + 1) rest st2

/-- Modelled from the spec: the per-day driver loop lives in the
tti.indicators package, outside src/.  Per the control-flow section of
the spec it calls `runSimulationRound(i, signal[i])` for each day in
order, starting from a fresh state with one row per day. -/
def runSimulation (cfg : Config) (signals : List PySignal) :
    Except String SimState :=
  runRounds cfg 0 signals (initState cfg.close_values.length)

/-- Python truthiness of a pandas boolean Series: defined only for a
single-element Series, every other length raises ValueError. -/
def seriesBool (m : List Bool) : Except String Bool :=
  match m with
  | [b] => .ok b
  | _ => .error "ValueError: The truth value of a Series is ambiguous. Use a.empty, a.bool(), a.item(), a.any() or a.all()."

/-- Python `a and b` on boolean Series: evaluates `bool(a)` and yields
`b` when it is truthy, `a` otherwise. -/
def pyAnd (a b : List Bool) : Except String (List Bool) :=
  match seriesBool a with
  | .error e => .error e
  | .ok t => .ok (if t then b else a)

/-- The boolean Series `portfolio['status'] == v`. -/
def statusMask (pf : List (Option PRow)) (v : String) : List Bool :=
  pf.map (fun r => match r with
    | some x => x.status == v
    | none => false)

/-- The boolean Series `portfolio['position'] == v`. -/
def positionMask (pf : List (Option PRow)) (v : String) : List Bool :=
  pf.map (fun r => match r with
    | some x => x.position == v
    | none => false)

/-- The boolean Series `portfolio['unit_price'] < price`. -/
def unitPriceLtMask (pf : List (Option PRow)) (price : ℚ) : List Bool :=
  pf.map (fun r => match r with
    | some x => decide (x.unit_price < price)
    | none => false)

/-- The boolean Series `portfolio['unit_price'] > price`. -/
def unitPriceGtMask (pf : List (Option PRow)) (price : ℚ) : List Bool :=
  pf.map (fun r => match r with
    | some x => decide (price < x.unit_price)
    | none => false)

/-- `sum(portfolio[mask]['items'])` for an arbitrary boolean Series. -/
def maskedItems (pf : List (Option PRow)) (m : List Bool) : ℤ :=
  ((pf.zip m).filterMap (fun rb =>
    if rb.2 then
      match rb.1 with
      | some x => some x.items
      | none => none
    else none)).sum

/-- `_closeOpenPositions` under the literal Python semantics of the mask
combinations `maskA and maskB` (and `maskA and maskB and maskC`): the
keyword `and` takes the truth value of its left operand, which for a
pandas Series raises ValueError unless the Series has exactly one
element. -/
def closeOpenPositionsRaw (pf : List (Option PRow)) (price : ℚ)
    (force_all write : Bool) : Except String (ℚ × List (Option PRow)) :=
  if force_all then
    match pyAnd (statusMask pf "open") (positionMask pf "long") with
    | .error e => .error e
    | .ok mLong =>
    match pyAnd (statusMask pf "open") (positionMask pf "short") with
    | .error e => .error e
    | .ok mShort =>
      .ok (((maskedItems pf mLong - maskedItems pf mShort : ℤ) : ℚ) * price, pf)
  else
    match pyAnd (statusMask pf "open") (positionMask pf "long") with
    | .error e => .error e
    | .ok mOL =>
    match pyAnd mOL (unitPriceLtMask pf price) with
    | .error e => .error e
    | .ok mLong =>
    match pyAnd (statusMask pf "open") (positionMask pf "short") with
    | .error e => .error e
    | .ok mOS =>
    match pyAnd mOS (unitPriceGtMask pf price) with
    | .error e => .error e
    | .ok mShort =>
      .ok (((maskedItems pf mLong - maskedItems pf mShort : ℤ) : ℚ) * price, pf)

/-- A generic cell of a portfolio column, as a pandas Series element. -/
inductive PCell where
  | str : String → PCell
  | int : ℤ → PCell
  | rat : ℚ → PCell
  | nan : PCell
deriving DecidableEq

/-- `self._portfolio[c]`: column access on the portfolio frame.  The
frame is created with columns position, items, unit_price and status;
any other label raises KeyError. -/
def portfolioColumn (pf : List (Option PRow)) (c : String) :
    Except String (List PCell) :=
  if c = "position" then
    .ok (pf.map (fun r => match r with
      | some x => PCell.str x.position
      | none => PCell.nan))
  else if c = "items" then
    .ok (pf.map (fun r => match r with
      | some x => PCell.int x.items
      | none => PCell.nan))
  else if c = "unit_price" then
    .ok (pf.map (fun r => match r with
      | some x => PCell.rat x.unit_price
      | none => PCell.nan))
  else if c = "status" then
    .ok (pf.map (fun r => match r with
      | some x => PCell.str x.status
      | none => PCell.nan))
  else .error ("KeyError: " ++ c)

/-- Number of `_simulation_data` rows selected by a predicate (NaN rows
never match a string comparison). -/
def countRows (sd : List (Option SimRow)) (p : SimRow → Bool) : ℕ :=
  (sd.filter (fun r => match r with
    | some x => p x
    | none => false)).length

/-- `self._simulation_data['balance'].iat[-1]`: IndexError on an empty
frame, otherwise the (possibly NaN) last balance cell. -/
def lastBalance (sd : List (Option SimRow)) : Except String (Option ℚ) :=
  match sd.getLast? with
  | some r => .ok (r.bind SimRow.balance)
  | none => .error "IndexError: index -1 is out of bounds"

/-- `self._simulation_data['stock_value'].iat[-1]` as a cell. -/
def lastStockValue (sd : List (Option SimRow)) : Except String (Option ℚ) :=
  match sd.getLast? with
  | some r => .ok (r.map SimRow.stock_value)
  | none => .error "IndexError: index -1 is out of bounds"

/-- `self._simulation_data['total_value'].iat[-1]` as a cell. -/
def lastTotalValue (sd : List (Option SimRow)) : Except String TCell :=
  match sd.getLast? with
  | some (some r) => .ok r.total_value
  | some none => .ok (TCell.num none)
  | none => .error "IndexError: index -1 is out of bounds"

/-- The `_statistics` dictionary. -/
structure SimulationStatistics where
  number_of_trading_days : ℕ
  number_of_buy_signals : ℕ
  number_of_ignored_buy_signals : ℕ
  number_of_sell_signals : ℕ
  number_of_ignored_sell_signals : ℕ
  balance : Option ℚ
  total_stocks_in_long : ℤ
  total_stocks_in_short : ℤ
  stock_value : Option ℚ
  total_value : TCell
deriving DecidableEq

/-- `sum(portfolio[(position == pos) element-wise-and (closeCol == 'open')][items])`
where `closeCol` is a previously fetched column. -/
def stocksByColumns (pf : List (Option PRow)) (closeCol : List PCell)
    (pos : String) : ℤ :=
  ((pf.zip closeCol).filterMap (fun rc =>
    match rc with
    | (some x, PCell.str s) =>
        if x.position == pos && s == "open" then some x.items else none
    | _ => none)).sum

/-- `_calculateSimulationStatistics()`, with the dictionary entries
evaluated in source order.  The compound row filters are taken
element-wise (the design notes flag the literal `and` as ambiguous; see
`seriesBool` for what the keyword itself would do), but the column
lookups are literal: the `total_stocks_in_long` entry selects on
`self._portfolio['close']`, and the portfolio frame has no `close`
column. -/
def calculateSimulationStatistics (st : SimState) :
    Except String SimulationStatistics :=
  match lastBalance st.simulation_data with
  | .error e => .error e
  | .ok bal =>
  match portfolioColumn st.portfolio "close" with
  | .error e => .error e
  | .ok closeCol =>
  match lastStockValue st.simulation_data with
  | .error e => .error e
  | .ok sv =>
  match lastTotalValue st.simulation_data with
  | .error e => .error e
  | .ok tv =>
    .ok
      { number_of_trading_days := st.simulation_data.length
        number_of_buy_signals :=
          countRows st.simulation_data (fun x => x.signal == "buy")
        number_of_ignored_buy_signals :=
          countRows st.simulation_data
            (fun x => x.signal == "buy" && x.trading_action == "none")
        number_of_sell_signals :=
          countRows st.simulation_data (fun x => x.signal == "sell")
        number_of_ignored_sell_signals :=
          countRows st.simulation_data
            (fun x => x.signal == "sell" && x.trading_action == "none")
        balance := bal
        total_stocks_in_long := stocksByColumns st.portfolio closeCol "long"
        total_stocks_in_short := stocksByColumns st.portfolio closeCol "short"
        stock_value := sv
        total_value := tv }

/-- `closeSimulation()`: recomputes the statistics and returns them with
the simulation data. -/
def closeSimulation (st : SimState) :
    Except String (List (Option SimRow) × SimulationStatistics) :=
  match calculateSimulationStatistics st with
  | .error e => .error e
  | .ok s => .ok (st.simulation_data, s)

/-- A Python value passed for one of the two numeric constructor
parameters. -/
inductive PyParam where
  | pint : ℤ → PyParam
  | pfloat : ℚ → PyParam
  | pbool : Bool → PyParam
  | pnone : PyParam
  | pother : PyParam
deriving DecidableEq

/-- Python `isinstance(x, int)`: bool is a subclass of int. -/
def pyIsInt : PyParam → Bool
  | PyParam.pint _ => true
  | PyParam.pbool _ => true
  | _ => false

/-- Python `isinstance(x, (int, float))`. -/
def pyIsNumeric : PyParam → Bool
  | PyParam.pint _ => true
  | PyParam.pbool _ => true
  | PyParam.pfloat _ => true
  | _ => false

/-- The numeric value of a parameter, used by the `<= 0` checks
(`True == 1`, `False == 0`). -/
def pyNumVal : PyParam → ℚ
  | PyParam.pint z => (z : ℚ)
  | PyParam.pfloat q => q
  | PyParam.pbool b => if b then 1 else 0
  | _ => 0

/-- The integer value of an int-like parameter, as later used for
`_max_items_per_transaction`. -/
def pyIntVal : PyParam → ℤ
  | PyParam.pint z => z
  | PyParam.pbool b => if b then 1 else 0
  | _ => 0

/-- The `max_items_per_transaction` check of
`_validateSimulationArguments`. -/
def validateMaxItemsPerTransaction (p : PyParam) : Except String Unit :=
  if pyIsInt p then
    if pyNumVal p ≤ 0 then
      .error "WrongValueForInputParameter: max_items_per_transaction"
    else .ok ()
  else .error "WrongTypeForInputParameter: max_items_per_transaction"

/-- The `max_investment` check of `_validateSimulationArguments`. -/
def validateMaxInvestment (p : PyParam) : Except String Unit :=
  if pyIsNumeric p then
    if pyNumVal p ≤ 0 then
      .error "WrongValueForInputParameter: max_investment"
    else .ok ()
  else if p = PyParam.pnone then .ok ()
  else .error "WrongTypeForInputParameter: max_investment"

/-- Net open units of a single ledger entry: open long items count
positively, open short items negatively. -/
def rowNetOpen (r : Option PRow) : ℤ :=
  match r with
  | some x =>
      if x.status = "open" then
        if x.position = "long" then x.items
        else if x.position = "short" then - x.items
        else 0
      else 0
  | none => 0

/-- Total open long units minus total open short units of a ledger. -/
def netOpenUnits (pf : List (Option PRow)) : ℤ :=
  (pf.map rowNetOpen).sum

/-- Net units of a single ledger entry restricted to positions that
would realize a gain at `price`: open longs entered strictly below it,
open shorts entered strictly above it. -/
def rowNetProfitable (price : ℚ) (r : Option PRow) : ℤ :=
  match r with
  | some x =>
      if x.status = "open" then
        if x.position = "long" ∧ x.unit_price < price then x.items
        else if x.position = "short" ∧ price < x.unit_price then - x.items
        else 0
      else 0
  | none => 0

/-- Net profitable units of a ledger at `price`. -/
def netProfitableUnits (pf : List (Option PRow)) (price : ℚ) : ℤ :=
  (pf.map (rowNetProfitable price)).sum

/-- Bound on an opened ledger entry: an open position never holds more
than `max_items_per_transaction` items, and exactly that many when
`max_investment` is unlimited. -/
def QuantityBound (cfg : Config) (r : Option PRow) : Prop :=
  ∀ x : PRow, r = some x → x.status = "open" →
    x.items ≤ cfg.max_items_per_transaction ∧
    (cfg.max_investment = none → x.items = cfg.max_items_per_transaction)

theorem okBind {α β : Type} (a : α) (f : α → Except String β) :
    (Except.ok a >>= f) = f a := rfl

theorem errorBind {α β : Type} (e : String) (f : α → Except String β) :
    ((Except.error e : Except String α) >>= f) = Except.error e := rfl

theorem pureEqOk {α : Type} (a : α) :
    (pure a : Except String α) = Except.ok a := rfl

theorem except_bind_ok {α β : Type} {x : Except String α}
    {f : α → Except String β} {b : β} (h : (x >>= f) = Except.ok b) :
    ∃ a, x = Except.ok a ∧ f a = Except.ok b := by
  cases x with
  | error e => rw [errorBind] at h; cases h
  | ok a => exact ⟨ a, rfl, by rw [okBind] at h; exact h⟩

theorem setRow_ok {α : Type} {l : List α} {i : ℕ} {v : α} {l2 : List α}
    (h : setRow l i v = .ok l2) : i < l.length ∧ l2 = l.set i v := by
  unfold setRow at h
  split at h
  · exact ⟨ by assumption, by cases h; rfl⟩
  · cases h

theorem setRow_length {α : Type} {l : List α} {i : ℕ} {v : α} {l2 : List α}
    (h : setRow l i v = .ok l2) : l2.length = l.length := by
  rcases setRow_ok h with ⟨ _, h2⟩
  simp [h2]

theorem setRow_mem {α : Type} {l : List α} {i : ℕ} {v : α} {l2 : List α}
    (h : setRow l i v = .ok l2) {x : α} (hx : x ∈ l2) : x ∈ l ∨ x = v := by
  rcases setRow_ok h with ⟨ _, h2⟩
  exact List.mem_or_eq_of_mem_set (h2 ▸ hx)

theorem setRow_get_self {α : Type} {l : List α} {i : ℕ} {v : α} {l2 : List α}
    (h : setRow l i v = .ok l2) : l2[i]? = some v := by
  rcases setRow_ok h with ⟨ h1, h2⟩
  simp [h2, List.getElem?_set_self h1]

theorem pyTrunc_nonneg {q : ℚ} {z : ℤ} (h0 : 0 ≤ q) (h1 : (z : ℚ) ≤ q)
    (h2 : q < z + 1) : pyTrunc q = z := by
  rw [pyTrunc, if_pos h0, Int.floor_eq_iff]
  exact ⟨ h1, by exact_mod_cast h2⟩

theorem pyTrunc_neg {q : ℚ} {z : ℤ} (h0 : ¬ 0 ≤ q) (h1 : (z : ℚ) - 1 < q)
    (h2 : q ≤ z) : pyTrunc q = z := by
  rw [pyTrunc, if_neg h0, Int.ceil_eq_iff]
  exact ⟨ by exact_mod_cast h1, h2⟩

theorem closeOpenPositions_portfolio (pf : List (Option PRow)) (price : ℚ)
    (fa w : Bool) : (closeOpenPositions pf price fa w).2 = pf := by
  unfold closeOpenPositions
  cases fa <;> rfl

theorem openItems_sub (pf : List (Option PRow)) :
    openItems pf "long" - openItems pf "short" = netOpenUnits pf := by
  induction pf with
  | nil => rfl
  | cons r t ih =>
      simp only [netOpenUnits, List.map_cons, List.sum_cons] at ih ⊢
      rw [← ih]
      cases r with
      | none => simp [openItems, List.filterMap_cons, rowNetOpen] <;> omega
      | some x =>
          by_cases h1 : x.status = "open"
          · by_cases h2 : x.position = "long"
            · have h3 : x.position ≠ "short" := by rw [h2]; simp
              simp [openItems, List.filterMap_cons, rowNetOpen, h1, h2, h3] <;> omega
            · by_cases h3 : x.position = "short" <;>
                simp [openItems, List.filterMap_cons, rowNetOpen, h1, h2, h3] <;> omega
          · simp [openItems, List.filterMap_cons, rowNetOpen, h1] <;> omega

theorem openProfitable_sub (pf : List (Option PRow)) (price : ℚ) :
    openLongBelow pf price - openShortAbove pf price = netProfitableUnits pf price := by
  induction pf with
  | nil => rfl
  | cons r t ih =>
      simp only [netProfitableUnits, List.map_cons, List.sum_cons] at ih ⊢
      rw [← ih]
      cases r with
      | none =>
          simp [openLongBelow, openShortAbove, List.filterMap_cons,
            rowNetProfitable] <;> omega
      | some x =>
          by_cases h1 : x.status = "open"
          · by_cases h2 : x.position = "long"
            · have h3 : x.position ≠ "short" := by rw [h2]; simp
              by_cases h4 : x.unit_price < price <;>
                simp [openLongBelow, openShortAbove, List.filterMap_cons,
                  rowNetProfitable, h1, h2, h3, h4] <;> omega
            · by_cases h3 : x.position = "short"
              · by_cases h5 : price < x.unit_price <;>
                  simp [openLongBelow, openShortAbove, List.filterMap_cons,
                    rowNetProfitable, h1, h2, h3, h5] <;> omega
              · simp [openLongBelow, openShortAbove, List.filterMap_cons,
                  rowNetProfitable, h1, h2, h3] <;> omega
          · simp [openLongBelow, openShortAbove, List.filterMap_cons,
              rowNetProfitable, h1] <;> omega

/-- C6: for every portfolio state and every price, `_closeOpenPositions`
returns, with force_all=true, (total open long units - total open short
units) x price, and with force_all=false the same expression restricted
to open long positions entered strictly below the price and open short
positions entered strictly above it. -/
theorem c6_liquidation_value (pf : List (Option PRow)) (price : ℚ) (w : Bool) :
    (closeOpenPositions pf price true w).1 = ((netOpenUnits pf : ℤ) : ℚ) * price ∧
    (closeOpenPositions pf price false w).1 =
      ((netProfitableUnits pf price : ℤ) : ℚ) * price := by
  constructor
  · show ((openItems pf "long" - openItems pf "short" : ℤ) : ℚ) * price = _
    rw [openItems_sub]
  · show ((openLongBelow pf price - openShortAbove pf price : ℤ) : ℚ) * price = _
    rw [openProfitable_sub]

theorem seriesBool_of_two_le {m : List Bool} (h : 2 ≤ m.length) :
    ∃ e, seriesBool m = .error e := by
  match m with
  | [] => simp at h
  | [b] => simp at h
  | a :: b :: t => exact ⟨ _, rfl⟩

theorem statusMask_length (pf : List (Option PRow)) (v : String) :
    (statusMask pf v).length = pf.length := by
  simp [statusMask]

/-- C2: contrary to the no-runtime-error contract, the literal Python
semantics of `_closeOpenPositions` raises ValueError on every portfolio
with at least two rows (every simulation of at least two days), in both
the force_all and the profitable-only branch, because the compound row
filters combine boolean Series with the keyword `and`, whose truth-value
test is ambiguous for a multi-element Series.  `runSimulationRound`
reaches this call on every hold, buy and sell day after day 0. -/
theorem c2_close_open_positions_raises (pf : List (Option PRow)) (price : ℚ)
    (fa w : Bool) (h : 2 ≤ pf.length) :
    ∃ e, closeOpenPositionsRaw pf price fa w = .error e := by
  have hm : 2 ≤ (statusMask pf "open").length := by rw [statusMask_length]; exact h
  rcases seriesBool_of_two_le hm with ⟨ e, he⟩
  unfold closeOpenPositionsRaw pyAnd
  cases fa <;> simp [he]

theorem c2_close_open_positions_raises_witness :
    2 ≤ ([some noneRow, none] : List (Option PRow)).length ∧
    ∃ e, closeOpenPositionsRaw [some noneRow, none] 100 true false = .error e :=
  ⟨ by simp, c2_close_open_positions_raises [some noneRow, none] 100 true false (by simp)⟩

/-- C8: the commit flag of `_closeOpenPositions` does not control the
ledger update.  write=false leaves the portfolio unchanged as claimed,
but so does write=true with force_all=true: the close is written through
`self._portfolio[mask]['status'] = 'close'`, a chained assignment into
the copy produced by boolean-mask indexing, so a portfolio holding one
open long position keeps it open after a committing full close. -/
theorem c8_commit_is_noop :
    closeOpenPositions [some ⟨ "long", 1, 100, "open"⟩ ] 110 true true =
      (110, [some ⟨ "long", 1, 100, "open"⟩ ]) ∧
    (⟨ "long", 1, 100, "open"⟩ : PRow).status ≠ "closed" ∧
    (⟨ "long", 1, 100, "open"⟩ : PRow).status ≠ "close" := by
  refine ⟨ ?_, by simp, by simp⟩
  show (((openItems _ "long" - openItems _ "short" : ℤ) : ℚ) * 110, _) = _
  simp only [openItems, List.filterMap_cons]
  norm_num
  rfl

/-- C10: construction accepts Python booleans where the numeric
parameters are validated: `max_items_per_transaction=True` passes the
positive-integer check (bool being a subclass of int) with numeric value
1, and `max_investment=True` passes the positive-number check; neither
raises a type or value error. -/
theorem c10_bool_params_accepted :
    validateMaxItemsPerTransaction (PyParam.pbool true) = .ok () ∧
    validateMaxInvestment (PyParam.pbool true) = .ok () ∧
    pyIntVal (PyParam.pbool true) = 1 ∧
    runSimulation ⟨ [100, 100], pyIntVal (PyParam.pbool true), none⟩
        [PySignal.hold, PySignal.buy] =
      runSimulation ⟨ [100, 100], 1, none⟩ [PySignal.hold, PySignal.buy] := by
  refine ⟨ ?_, ?_, rfl, rfl⟩
  · rw [validateMaxItemsPerTransaction]
    norm_num [pyIsInt, pyNumVal]
  · rw [validateMaxInvestment]
    norm_num [pyIsNumeric, pyNumVal]

/-- C5: the concrete scenario of the spec: prices [100, 100, 110, 90],
signals [hold, buy, sell, hold], max_items_per_transaction=1,
max_investment=None.  Day 1 opens long(1@100) with balance -100; day 2
opens short(1@110) while the day-1 long stays open, with balance 10; the
day-3 hold records total_value 10. -/
theorem c5_concrete_scenario :
    runSimulation ⟨ [100, 100, 110, 90], 1, none⟩
        [PySignal.hold, PySignal.buy, PySignal.sell, PySignal.hold] =
      .ok ⟨ [some noneRow, some ⟨ "long", 1, 100, "open"⟩ ,
             some ⟨ "short", 1, 110, "open"⟩ , some noneRow],
            [some day0Row,
             some ⟨ "buy", "open_long", 1, some (-100), 100, TCell.num (some 0)⟩ ,
             some ⟨ "sell", "open_short", 1, some 10, 110, TCell.num (some 10)⟩ ,
             some ⟨ "hold", "none", 0, some 10, 90, TCell.num (some 10)⟩ ]⟩ := by
  simp [runSimulation, runRounds, runSimulationRound, processBuySignal,
    processSellSignal, processHoldSignal, initState, setRow, balIat, priceAt,
    closeOpenPositions, openItems, setTotalValue, cellSubQ, cellAddQ, cellNeg,
    okBind, errorBind, pureEqOk, day0Row, noneRow, List.filterMap_cons,
    List.set, List.replicate]
  norm_num

/-- C1: the affordability gate never fires, because the guard of
`_processBuySignal` and `_processSellSignal` reads
`self._simulation_data['balance'].iat[i_index]` (the current, still
unset row) instead of row `i_index - 1`, and every comparison with that
NaN cell is False.  Concretely, with prices [100, 100], signals
[hold, buy], max_items_per_transaction=1 and max_investment=50, day 1
satisfies the claimed gate condition balance[0] - price[1] +
max_investment = 0 - 100 + 50 < 0, yet the recorded trading action is
`open_long` (with quantity 0) and the day-1 ledger entry is an open long
position, not the claimed none/none row. -/
theorem c1_gate_never_fires :
    ((0 : ℚ) - 100 + 50 < 0) ∧
    runSimulation ⟨ [100, 100], 1, some 50⟩ [PySignal.hold, PySignal.buy] =
      .ok ⟨ [some noneRow, some ⟨ "long", 0, 100, "open"⟩ ],
            [some day0Row,
             some ⟨ "buy", "open_long", 0, some 0, 100, TCell.num (some 0)⟩ ]⟩ ∧
    ("open_long" : String) ≠ "none" := by
  refine ⟨ by norm_num, ?_, by simp⟩
  have ht : pyTrunc ((-50 : ℚ) / 100) = 0 :=
    pyTrunc_neg (by norm_num) (by norm_num) (by norm_num)
  simp [runSimulation, runRounds, runSimulationRound, processBuySignal,
    processSellSignal, processHoldSignal, initState, setRow, balIat, priceAt,
    closeOpenPositions, openItems, setTotalValue, cellSubQ, cellAddQ, cellNeg,
    pyIntCell, ht, Except.map, min_def, okBind, errorBind, pureEqOk, day0Row,
    noneRow, List.filterMap_cons, List.set, List.replicate]

/-- C3 counterexample: day 0 records stock_value (the mark price) as the
hard-coded 0.0, not as price[0].  With the single-day price series [100]
and a buy signal on day 0, the recorded day-0 row has stock_value 0,
different from price[0] = 100. -/
theorem c3_day0_mark_price_cx :
    runSimulation ⟨ [100], 1, none⟩ [PySignal.buy] =
      .ok ⟨ [some noneRow], [some day0Row]⟩ ∧
    day0Row.stock_value = 0 ∧ day0Row.stock_value ≠ 100 := by
  refine ⟨ ?_, rfl, by norm_num [day0Row]⟩
  simp [runSimulation, runRounds, runSimulationRound, initState, setRow,
    day0Row, noneRow, List.set, List.replicate]

/-- C4 counterexample: with prices [10, 10], signals [hold, buy],
max_items_per_transaction=1 and max_investment=1000, day 1 is admitted
and opens a long position with quantity min(1, int((0 - 1000) / 10)) =
-100, violating the claimed bound 0 < quantity. -/
theorem c4_quantity_cx :
    runSimulation ⟨ [10, 10], 1, some 1000⟩ [PySignal.hold, PySignal.buy] =
      .ok ⟨ [some noneRow, some ⟨ "long", -100, 10, "open"⟩ ],
            [some day0Row,
             some ⟨ "buy", "open_long", -100, some 1000, 10,
               TCell.num (some 0)⟩ ]⟩ ∧
    ¬ (0 < (⟨ "long", -100, 10, "open"⟩ : PRow).items) := by
  refine ⟨ ?_, by norm_num⟩
  have ht : pyTrunc ((-1000 : ℚ) / 10) = -100 :=
    pyTrunc_neg (by norm_num) (by norm_num) (by norm_num)
  simp [runSimulation, runRounds, runSimulationRound, processBuySignal,
    processSellSignal, processHoldSignal, initState, setRow, balIat, priceAt,
    closeOpenPositions, openItems, setTotalValue, cellSubQ, cellAddQ, cellNeg,
    pyIntCell, ht, Except.map, min_def, okBind, errorBind, pureEqOk, day0Row,
    noneRow, List.filterMap_cons, List.set, List.replicate]
  norm_num

/-- C3 (amended): for every configuration and state with at least one
allocated row, processing day 0 with any signal records the fixed
bootstrap: signal hold, action none, 0 stocks, balance 0, stock_value 0
(the hard-coded 0.0, not price[0]), total_value 0, and the none/none
ledger entry. -/
theorem c3_day0_bootstrap (cfg : Config) (st : SimState) (s : PySignal)
    (h1 : 0 < st.simulation_data.length) (h2 : 0 < st.portfolio.length) :
    runSimulationRound cfg st 0 s =
      .ok ⟨ st.portfolio.set 0 (some noneRow),
            st.simulation_data.set 0 (some day0Row)⟩ := by
  simp [runSimulationRound, setRow, h1, h2]

theorem c3_day0_bootstrap_witness :
    0 < (initState 1).simulation_data.length ∧
    0 < (initState 1).portfolio.length ∧
    runSimulationRound ⟨ [100], 1, none⟩ (initState 1) 0 PySignal.sell =
      .ok ⟨ (initState 1).portfolio.set 0 (some noneRow),
            (initState 1).simulation_data.set 0 (some day0Row)⟩ :=
  ⟨ by simp [initState], by simp [initState],
    c3_day0_bootstrap ⟨ [100], 1, none⟩ (initState 1) PySignal.sell
      (by simp [initState]) (by simp [initState])⟩

/-- C9: on any day after day 0, a signal value different from the buy
and sell codes -- Python None or any unrecognized value included -- is
dispatched to the hold handler, and a successful round then records the
day as a hold with no position opened: the day-i ledger row is the
none/none row and the day-i trace row has signal hold, action none and
zero stocks. -/
theorem c9_unknown_signal_is_hold (cfg : Config) (st : SimState) (i : ℕ)
    (s : PySignal) (hb : s ≠ PySignal.buy) (hs : s ≠ PySignal.sell)
    (hi : i ≠ 0) :
    runSimulationRound cfg st i s = processHoldSignal cfg st i ∧
    (∀ st2 : SimState, runSimulationRound cfg st i s = .ok st2 →
      st2.portfolio[i]? = some (some noneRow) ∧
      ∃ r : SimRow, st2.simulation_data[i]? = some (some r) ∧
        r.signal = "hold" ∧ r.trading_action = "none" ∧
        r.stocks_in_transaction = 0) := by
  have hdisp : runSimulationRound cfg st i s = processHoldSignal cfg st i := by
    unfold runSimulationRound
    rw [if_neg hi]
    cases s
    · exact absurd rfl hb
    · exact absurd rfl hs
    · rfl
    · rfl
    · rfl
  refine ⟨ hdisp, ?_⟩
  intro st2 h
  rw [hdisp, processHoldSignal] at h
  rcases except_bind_ok h with ⟨ pf1, hpf, h⟩
  rcases except_bind_ok h with ⟨ price, hpr, h⟩
  rcases except_bind_ok h with ⟨ prev, hprev, h⟩
  rcases except_bind_ok h with ⟨ sd1, hsd1, h⟩
  rw [pureEqOk] at h
  cases h
  constructor
  · show (closeOpenPositions pf1 price true false).2[i]? = _
    rw [closeOpenPositions_portfolio]
    exact setRow_get_self hpf
  · exact ⟨ _, setRow_get_self hsd1, rfl, rfl, rfl⟩

theorem c9_unknown_signal_is_hold_witness :
    (PySignal.pynone ≠ PySignal.buy) ∧ (PySignal.pynone ≠ PySignal.sell) ∧
    ((1 : ℕ) ≠ 0) ∧
    runSimulationRound ⟨ [100, 100], 1, none⟩
        ⟨ [some noneRow, none], [some day0Row, none]⟩ 1 PySignal.pynone =
      processHoldSignal ⟨ [100, 100], 1, none⟩
        ⟨ [some noneRow, none], [some day0Row, none]⟩ 1 :=
  ⟨ by simp, by simp, by simp,
    (c9_unknown_signal_is_hold ⟨ [100, 100], 1, none⟩
      ⟨ [some noneRow, none], [some day0Row, none]⟩ 1 PySignal.pynone
      (by simp) (by simp) (by simp)).1⟩

/-- C7: `closeSimulation` never returns the claimed statistics: on every
state with at least one trace row, `_calculateSimulationStatistics`
raises a KeyError because its `total_stocks_in_long` entry selects on
`self._portfolio['close']`, a column the portfolio frame does not have
(and under the literal Python Series `and` of its compound filters it
would raise ValueError even earlier), so the trade-day/balance
consistency the claim describes is never produced. -/
theorem c7_statistics_key_error (st : SimState)
    (h : st.simulation_data ≠ []) :
    closeSimulation st = .error ("KeyError: " ++ "close") := by
  obtain ⟨ pf, sd⟩ := st
  unfold closeSimulation calculateSimulationStatistics lastBalance
  cases hgl : sd.getLast? with
  | none =>
      exfalso
      have h2 := List.getLast?_isSome (l := sd)
      rw [hgl] at h2
      simp at h2
      exact h (by simpa using h2)
  | some r =>
      simp only [hgl]
      simp [portfolioColumn]

theorem c7_statistics_key_error_witness :
    (([some day0Row] : List (Option SimRow)) ≠ []) ∧
    closeSimulation ⟨ [some noneRow], [some day0Row]⟩ =
      .error ("KeyError: " ++ "close") :=
  ⟨ by simp,
    c7_statistics_key_error ⟨ [some noneRow], [some day0Row]⟩ (by simp)⟩

theorem processHoldSignal_bound {cfg : Config} {st : SimState} {i : ℕ}
    {st2 : SimState} (h : processHoldSignal cfg st i = .ok st2)
    (inv : ∀ r ∈ st.portfolio, QuantityBound cfg r) :
    ∀ r ∈ st2.portfolio, QuantityBound cfg r := by
  rw [processHoldSignal] at h
  rcases except_bind_ok h with ⟨ pf1, hpf, h⟩
  rcases except_bind_ok h with ⟨ price, hpr, h⟩
  rcases except_bind_ok h with ⟨ prev, hprev, h⟩
  rcases except_bind_ok h with ⟨ sd1, hsd1, h⟩
  rw [pureEqOk] at h
  cases h
  intro r hr
  rw [SimState.portfolio] at hr
  rw [closeOpenPositions_portfolio] at hr
  rcases setRow_mem hpf hr with h1 | h1
  · exact inv r h1
  · subst h1
    intro x hx hopen
    cases hx
    simp [noneRow] at hopen

theorem processBuySignal_bound {cfg : Config} {st : SimState} {i : ℕ}
    {st2 : SimState} (h : processBuySignal cfg st i = .ok st2)
    (inv : ∀ r ∈ st.portfolio, QuantityBound cfg r) :
    ∀ r ∈ st2.portfolio, QuantityBound cfg r := by
  rw [processBuySignal] at h
  rcases except_bind_ok h with ⟨ price, hpr, h⟩
  rcases except_bind_ok h with ⟨ cur, hcur, h⟩
  split at h
  · rcases except_bind_ok h with ⟨ pf1, hpf, h⟩
    rcases except_bind_ok h with ⟨ prev, hprev, h⟩
    rcases except_bind_ok h with ⟨ sd1, hsd1, h⟩
    rw [pureEqOk] at h
    cases h
    intro r hr
    rw [SimState.portfolio] at hr
    rw [closeOpenPositions_portfolio] at hr
    rcases setRow_mem hpf hr with h1 | h1
    · exact inv r h1
    · subst h1
      intro x hx hopen
      cases hx
      simp [noneRow] at hopen
  · rcases except_bind_ok h with ⟨ q, hq, h⟩
    rcases except_bind_ok h with ⟨ pf1, hpf, h⟩
    rcases except_bind_ok h with ⟨ prev, hprev, h⟩
    rcases except_bind_ok h with ⟨ sd1, hsd1, h⟩
    rcases except_bind_ok h with ⟨ sd2, hsd2, h⟩
    rw [pureEqOk] at h
    cases h
    intro r hr
    rw [SimState.portfolio] at hr
    rw [closeOpenPositions_portfolio] at hr
    rcases setRow_mem hpf hr with h1 | h1
    · exact inv r h1
    · subst h1
      intro x hx hopen
      cases hx
      cases hmi : cfg.max_investment with
      | none =>
          simp only [hmi] at hq
          rw [pureEqOk] at hq
          injection hq with hq
          subst hq
          exact ⟨ le_refl _, fun _ => rfl⟩
      | some mi =>
          simp only [hmi] at hq
          rcases except_bind_ok hq with ⟨ prev2, hp2, hq⟩
          rcases except_bind_ok hq with ⟨ t, ht2, hq⟩
          rw [pureEqOk] at hq
          injection hq with hq
          subst hq
          exact ⟨ min_le_left _ _, fun hnone => Option.noConfusion hnone⟩

theorem processSellSignal_bound {cfg : Config} {st : SimState} {i : ℕ}
    {st2 : SimState} (h : processSellSignal cfg st i = .ok st2)
    (inv : ∀ r ∈ st.portfolio, QuantityBound cfg r) :
    ∀ r ∈ st2.portfolio, QuantityBound cfg r := by
  rw [processSellSignal] at h
  rcases except_bind_ok h with ⟨ price, hpr, h⟩
  rcases except_bind_ok h with ⟨ cur, hcur, h⟩
  split at h
  · rcases except_bind_ok h with ⟨ pf1, hpf, h⟩
    rcases except_bind_ok h with ⟨ prev, hprev, h⟩
    rcases except_bind_ok h with ⟨ sd1, hsd1, h⟩
    rw [pureEqOk] at h
    cases h
    intro r hr
    rw [SimState.portfolio] at hr
    rw [closeOpenPositions_portfolio] at hr
    rcases setRow_mem hpf hr with h1 | h1
    · exact inv r h1
    · subst h1
      intro x hx hopen
      cases hx
      simp [noneRow] at hopen
  · rcases except_bind_ok h with ⟨ q, hq, h⟩
    rcases except_bind_ok h with ⟨ pf1, hpf, h⟩
    rcases except_bind_ok h with ⟨ prev, hprev, h⟩
    rcases except_bind_ok h with ⟨ sd1, hsd1, h⟩
    rcases except_bind_ok h with ⟨ sd2, hsd2, h⟩
    rw [pureEqOk] at h
    cases h
    intro r hr
    rw [SimState.portfolio] at hr
    rw [closeOpenPositions_portfolio] at hr
    rcases setRow_mem hpf hr with h1 | h1
    · exact inv r h1
    · subst h1
      intro x hx hopen
      cases hx
      cases hmi : cfg.max_investment with
      | none =>
          simp only [hmi] at hq
          rw [pureEqOk] at hq
          injection hq with hq
          subst hq
          exact ⟨ le_refl _, fun _ => rfl⟩
      | some mi =>
          simp only [hmi] at hq
          rcases except_bind_ok hq with ⟨ prev2, hp2, hq⟩
          rcases except_bind_ok hq with ⟨ t, ht2, hq⟩
          rw [pureEqOk] at hq
          injection hq with hq
          subst hq
          exact ⟨ min_le_left _ _, fun hnone => Option.noConfusion hnone⟩

theorem runSimulationRound_bound {cfg : Config} {st : SimState} {i : ℕ}
    {s : PySignal} {st2 : SimState}
    (h : runSimulationRound cfg st i s = .ok st2)
    (inv : ∀ r ∈ st.portfolio, QuantityBound cfg r) :
    ∀ r ∈ st2.portfolio, QuantityBound cfg r := by
  unfold runSimulationRound at h
  by_cases hi : i = 0
  · rw [if_pos hi] at h
    cases hsd : setRow st.simulation_data 0 (some day0Row) with
    | error e => rw [hsd] at h; simp at h
    | ok sd1 =>
        simp only [hsd] at h
        cases hpf : setRow st.portfolio 0 (some noneRow) with
        | error e => rw [hpf] at h; simp at h
        | ok pf1 =>
            simp only [hpf] at h
            cases h
            intro r hr
            rw [SimState.portfolio] at hr
            rcases setRow_mem hpf hr with h1 | h1
            · exact inv r h1
            · subst h1
              intro x hx hopen
              cases hx
              simp [noneRow] at hopen
  · rw [if_neg hi] at h
    cases s
    · exact processBuySignal_bound h inv
    · exact processSellSignal_bound h inv
    · exact processHoldSignal_bound h inv
    · exact processHoldSignal_bound h inv
    · exact processHoldSignal_bound h inv

theorem runRounds_bound (cfg : Config) (l : List PySignal) :
    ∀ (i : ℕ) (st st2 : SimState), runRounds cfg i l st = .ok st2 →
      (∀ r ∈ st.portfolio, QuantityBound cfg r) →
      ∀ r ∈ st2.portfolio, QuantityBound cfg r := by
  induction l with
  | nil =>
      intro i st st2 h inv
      simp only [runRounds] at h
      cases h
      exact inv
  | cons s rest ih =>
      intro i st st2 h inv
      simp only [runRounds] at h
      cases hr : runSimulationRound cfg st i s with
      | error e => rw [hr] at h; simp at h
      | ok stm =>
          simp only [hr] at h
          exact ih (i + 1) stm st2 h (runSimulationRound_bound hr inv)

/-- C4 (amended): whenever a long or short position is open in the final
state of a run, its quantity is at most `max_items_per_transaction`;
when `max_investment` is None (unlimited) the quantity is exactly
`max_items_per_transaction`, hence strictly positive.  When
`max_investment` is set, the computed quantity
min(max_items_per_transaction, int((balance[i-1] - max_investment) /
price[i])) is not strictly positive in general (see the counterexample,
where it is -100). -/
theorem c4_quantity_bound (cfg : Config) (signals : List PySignal)
    (st2 : SimState) (hmax : 1 ≤ cfg.max_items_per_transaction)
    (hrun : runSimulation cfg signals = .ok st2) :
    ∀ r ∈ st2.portfolio, ∀ x : PRow, r = some x → x.status = "open" →
      x.items ≤ cfg.max_items_per_transaction ∧
      (cfg.max_investment = none →
        0 < x.items ∧ x.items = cfg.max_items_per_transaction) := by
  intro r hr x hx hopen
  rw [runSimulation] at hrun
  have inv0 : ∀ r ∈ (initState cfg.close_values.length).portfolio,
      QuantityBound cfg r := by
    intro r0 hr0
    simp only [initState] at hr0
    obtain ⟨ -, hr0⟩ := List.mem_replicate.mp hr0
    subst hr0
    intro x0 hx0
    exact Option.noConfusion hx0
  have hq := runRounds_bound cfg signals 0 (initState cfg.close_values.length)
    st2 hrun inv0 r hr x hx hopen
  refine ⟨ hq.1, fun hnone => ⟨ ?_, hq.2 hnone⟩⟩
  have := hq.2 hnone
  omega

theorem c4_quantity_bound_witness :
    (1 : ℤ) ≤ 1 ∧ (⟨ "long", 1, 100, "open"⟩ : PRow).items ≤ 1 :=
  ⟨ le_refl 1,
    (c4_quantity_bound ⟨ [100, 100], 1, none⟩ [PySignal.hold, PySignal.buy]
      ⟨ [some noneRow, some ⟨ "long", 1, 100, "open"⟩ ],
        [some day0Row,
         some ⟨ "buy", "open_long", 1, some (-100), 100, TCell.num (some 0)⟩ ]⟩
      (le_refl 1)
      (by simp [runSimulation, runRounds, runSimulationRound, processBuySignal,
            processSellSignal, processHoldSignal, initState, setRow, balIat,
            priceAt, closeOpenPositions, openItems, setTotalValue, cellSubQ,
            cellAddQ, cellNeg, okBind, errorBind, pureEqOk, day0Row, noneRow,
            List.filterMap_cons, List.set, List.replicate])
      (some ⟨ "long", 1, 100, "open"⟩ ) (by simp)
      ⟨ "long", 1, 100, "open"⟩ rfl rfl).1⟩

end TradingSim
